import Mathlib

/-!
Verification of the SHT31 sigrok protocol decoder
(`src/decoders/sht31/pd.py`).

The decoder consumes I²C-level bus events (START, ADDRESS READ/WRITE,
DATA READ/WRITE, STOP) and emits annotations: temperature and relative
humidity readings, CRC check results, and warnings.

Shallow embedding conventions:
* Bytes and sample indices are `Nat`.
* Python's mutable `Decoder` instance becomes the `Decoder` structure and
  every method becomes a pure function threading the structure.
* `self.put(...)` calls are collected into a returned `List Ann`; the
  rendered text is represented by its semantic payload (`AnnBody`), since
  string formatting is presentation-only.
* Python list indexing `xs[i]`, which can raise `IndexError`, becomes
  `List.get?`; a step that would raise returns `none`, so totality of the
  decoder on reachable states is a theorem, not an assumption.
* Floating point arithmetic (`float`) is modelled by exact rationals `ℚ`.
-/

set_option autoImplicit false

namespace SHT31

/-- The decoder's bus-phase states; the source uses the strings
`'IDLE'`, `'GET SLAVE ADDR'` and `'READ PERIODIC DATA'`. The spec calls
them `Idle`, `AwaitingAddress` and `ReadingData`. -/
inductive PDState
  | IDLE
  | GET_SLAVE_ADDR
  | READ_PERIODIC_DATA
  deriving DecidableEq, Repr

/-- The six transaction-level event kinds delivered by the external I²C
decoder (the `cmd` strings of `decode`). -/
inductive Cmd
  | START
  | ADDRESS_READ
  | ADDRESS_WRITE
  | DATA_READ
  | DATA_WRITE
  | STOP
  deriving DecidableEq, Repr

/-- One bus event: `decode(ss, es, (cmd, databyte))`. `databyte` is
meaningful only for the ADDRESS/DATA kinds. -/
structure Event where
  cmd : Cmd
  databyte : Nat
  ss : Nat
  es : Nat
  deriving DecidableEq, Repr

/-- The semantic payload of one emitted record (`putx`/`putb` data):
the class index of the `annotations` tuple together with the value the
format string renders. -/
inductive AnnBody
  | temperature (raw : Nat) (celsius : ℚ)      -- class 0, '%s: %.1f °C'
  | relHumidity (raw : Nat) (percent : ℚ)      -- class 1, '%s: %.1f %%'
  | crcOk (crcByte : Nat)                      -- class 3, 'CRC: %02X'
  | crcWarn (crcByte : Nat)                    -- class 4, 'Warning: CRC: %02X'
  | addrWarn (addr : Nat)                      -- class 4, bad-slave warning
  deriving DecidableEq, Repr

/-- One emitted record with its sample span (`self.put(ss, es, ...)`). -/
structure Ann where
  ss : Nat
  es : Nat
  body : AnnBody
  deriving DecidableEq, Repr

/-- The CRC configuration built in `reset`:
`crc.Configuration(width, poly, init_value, final_xor_value,
reverse_input, reverse_output)`. -/
structure Configuration where
  width : Nat
  poly : Nat
  init_value : Nat
  final_xor_value : Nat
  reverse_input : Bool
  reverse_output : Bool
  deriving DecidableEq, Repr

/-- Modelled from the spec: one shift step of the bit-at-a-time CRC for a
non-reflected width-8 configuration (the external `crc` package is not in
the repository; §4.1 fixes the algorithm as "standard bit-at-a-time ...
CRC-8 over the given bytes using ChecksumConfig", and table acceleration
is specified to be functionally identical). -/
def crcShift (poly : Nat) (c : Nat) : Nat :=
  if 128 ≤ c % 256 then ((c * 2) ^^^ poly) % 256 else (c * 2) % 256

/-- Modelled from the spec: folding one input byte into the running CRC
register (XOR into the 8-bit register, then eight shift steps). -/
def crcFoldByte (poly : Nat) (c b : Nat) : Nat :=
  (crcShift poly)^[8] (c ^^^ b)

/-- Modelled from the spec: `CrcCalculator.calculate_checksum(data)` for a
non-reflected width-8 configuration — start from `init_value`, fold each
data byte, apply `final_xor_value`. -/
def calculate_checksum (cfg : Configuration) (data : List Nat) : Nat :=
  (data.foldl (crcFoldByte cfg.poly) cfg.init_value) ^^^ cfg.final_xor_value

/-- Modelled from the spec: `CrcCalculator.verify_checksum(data, expected)`
— true iff the computed checksum equals the expected byte (§4.1: "verify
returns true iff compute(bytes) == expected"). -/
def verify_checksum (cfg : Configuration) (data : List Nat) (expected : Nat) : Bool :=
  calculate_checksum cfg data == expected

/-- The fixed configuration `reset` installs: width 8, polynomial 0x31,
initial value 0xFF, final XOR 0x00, no input or output reflection. -/
def sht31Config : Configuration :=
  { width := 8
    poly := 0x31
    init_value := 0xFF
    final_xor_value := 0x00
    reverse_input := false
    reverse_output := false }

/-- The unit conversion inside `output_temperature`:
`celsius = -45 + 175 * float(raw) / (2**16 - 1)`, floats as exact `ℚ`. -/
def temperature_celsius (raw : Nat) : ℚ :=
  -45 + 175 * (raw : ℚ) / (2 ^ 16 - 1)

/-- The unit conversion inside `output_relative_humidity`:
`relative_humidity = 100 * float(raw) / (2**16 - 1)`, floats as `ℚ`. -/
def relative_humidity_percent (raw : Nat) : ℚ :=
  100 * (raw : ℚ) / (2 ^ 16 - 1)

/-- The mutable state of a `Decoder` instance: bus phase, the accumulated
data bytes, the CRC calculator (represented by its configuration), and the
sample bookkeeping fields `ss`/`es` (current packet) and
`ss_block`/`es_block` (current logical field). -/
structure Decoder where
  state : PDState
  databytes : List Nat
  crc_config : Configuration
  ss : Nat
  es : Nat
  ss_block : Nat
  es_block : Nat
  deriving DecidableEq, Repr

namespace Decoder

/-- `reset(self)`: state `'IDLE'`, empty `databytes`, and a freshly built
CRC calculator with the fixed configuration. It performs no `put` call,
so the emitted list is definitionally empty. -/
def reset (d : Decoder) : Decoder × List Ann :=
  ({ d with state := .IDLE, databytes := [], crc_config := sht31Config }, [])

/-- `__init__(self)`: just calls `reset()`. The sample fields do not exist
yet in the Python object and are only ever read after being written, so
they are initialised to 0 here. -/
def construct : Decoder :=
  (reset { state := .IDLE
           databytes := []
           crc_config := sht31Config
           ss := 0
           es := 0
           ss_block := 0
           es_block := 0 }).1

/-- `warn_upon_invalid_slave(self, addr)`: warn (via `putx`, class 4)
unless `addr in range(0x44, 0x45 + 1)`. -/
def warn_upon_invalid_slave (d : Decoder) (addr : Nat) : List Ann :=
  if 0x44 ≤ addr ∧ addr ≤ 0x45 then []
  else [{ ss := d.ss, es := d.es, body := .addrWarn addr }]

/-- `warn_upon_crc_error(self, data, expected_crc)`: computes the checksum
of `data`, emits `'CRC: %02X' % crc` (class 3) on a match and
`'Warning: CRC: %02X' % crc` (class 4) on a mismatch — in both branches
the rendered byte is the computed `crc`, and the span is `putx`'s
current-packet `ss`/`es`. -/
def warn_upon_crc_error (d : Decoder) (data : List Nat) (expected_crc : Nat) : Ann :=
  let c := calculate_checksum d.crc_config data
  if verify_checksum d.crc_config data expected_crc
  then { ss := d.ss, es := d.es, body := .crcOk c }
  else { ss := d.ss, es := d.es, body := .crcWarn c }

/-- `output_temperature(self)`: `raw = (databytes[0] << 8) | databytes[1]`,
convert to celsius, emit via `putb` (block span). Indexing is fallible. -/
def output_temperature (d : Decoder) : Option Ann := do
  let b0 ← d.databytes.get? 0
  let b1 ← d.databytes.get? 1
  let raw := (b0 <<< 8) ||| b1
  some { ss := d.ss_block, es := d.es_block
         body := .temperature raw (temperature_celsius raw) }

/-- `output_relative_humidity(self)`:
`raw = (databytes[2] << 8) | databytes[3]`, convert to percent, emit via
`putb` (block span). Indexing is fallible. -/
def output_relative_humidity (d : Decoder) : Option Ann := do
  let b2 ← d.databytes.get? 2
  let b3 ← d.databytes.get? 3
  let raw := (b2 <<< 8) ||| b3
  some { ss := d.ss_block, es := d.es_block
         body := .relHumidity raw (relative_humidity_percent raw) }

/-- `handle_periodic_data(self, b, rw)`: append `b`, then branch on the
new buffer length. Lengths 1 and 4 open a block span; 2 emits the
temperature; 3 checks the first CRC (`databytes[0:2]` vs `databytes[2]`);
5 emits the humidity and falls through to the (then false) length-6 test;
6 checks the second CRC (`databytes[3:5]` vs `databytes[5]`) and clears
the buffer. Any other length falls off the end of the method. -/
def handle_periodic_data (d : Decoder) (b : Nat) (_rw : String) :
    Option (Decoder × List Ann) :=
  let d := { d with databytes := d.databytes ++ [b] }
  if d.databytes.length = 1 ∨ d.databytes.length = 4 then
    some ({ d with ss_block := d.ss }, [])
  else if d.databytes.length = 2 then do
    let d := { d with es_block := d.es }
    let a ← d.output_temperature
    some (d, [a])
  else if d.databytes.length = 3 then do
    let d := { d with ss_block := d.ss, es_block := d.es }
    let e2 ← d.databytes.get? 2
    some (d, [d.warn_upon_crc_error (d.databytes.take 2) e2])
  else if d.databytes.length = 5 then do
    let d := { d with es_block := d.es }
    let a ← d.output_relative_humidity
    some (d, [a])
  else if d.databytes.length = 6 then do
    let d := { d with ss_block := d.ss, es_block := d.es }
    let e5 ← d.databytes.get? 5
    let a := d.warn_upon_crc_error ((d.databytes.drop 3).take 2) e5
    some ({ d with databytes := [] }, [a])
  else
    some (d, [])

/-- `decode(self, ss, es, data)`: store the packet span, then run the
state machine. `IDLE` waits for START; `GET SLAVE ADDR` handles ADDRESS
READ (address check, then transition to reading); `READ PERIODIC DATA`
forwards DATA READ bytes to `handle_periodic_data` and returns to `IDLE`
on STOP; everything else is ignored. -/
def decode (d : Decoder) (ev : Event) : Option (Decoder × List Ann) :=
  let d := { d with ss := ev.ss, es := ev.es }
  match d.state with
  | .IDLE =>
      if ev.cmd = .START then some ({ d with state := .GET_SLAVE_ADDR }, [])
      else some (d, [])
  | .GET_SLAVE_ADDR =>
      match ev.cmd with
      | .ADDRESS_READ =>
          some ({ d with state := .READ_PERIODIC_DATA },
                d.warn_upon_invalid_slave ev.databyte)
      | _ => some (d, [])
  | .READ_PERIODIC_DATA =>
      match ev.cmd with
      | .DATA_READ => d.handle_periodic_data ev.databyte "READ"
      | .STOP => some ({ d with state := .IDLE }, [])
      | _ => some (d, [])

end Decoder

/-- Run a whole event stream, concatenating the emitted records; `none` if
any single step raises. -/
def runEvents (d : Decoder) : List Event → Option (Decoder × List Ann)
  | [] => some (d, [])
  | ev :: rest => do
      let (d1, anns) ← d.decode ev
      let (d2, anns2) ← runEvents d1 rest
      some (d2, anns ++ anns2)

/-- A decoder state is reachable when some event stream, starting from a
freshly constructed decoder, produces it without raising. -/
def Reachable (d : Decoder) : Prop :=
  ∃ evs r, runEvents Decoder.construct evs = some r ∧ r.1 = d

/-- Does a record's body report a checksum verification (class 3 ok or
class 4 CRC warning)? -/
def AnnBody.isChecksum : AnnBody → Bool
  | .crcOk _ => true
  | .crcWarn _ => true
  | _ => false

/-- Is a record's body the CRC-mismatch warning? -/
def AnnBody.isCrcWarn : AnnBody → Bool
  | .crcWarn _ => true
  | _ => false

/-- The byte that the CRC format strings (`'CRC: %02X'` and
`'Warning: CRC: %02X'`) render, when the record is a checksum one. -/
def Ann.renderedCrc (a : Ann) : Option Nat :=
  match a.body with
  | .crcOk c => some c
  | .crcWarn c => some c
  | _ => none

/-- The raw humidity words carried by the relative-humidity records of an
output stream. -/
def humidityRaws (anns : List Ann) : List Nat :=
  anns.filterMap fun a =>
    match a.body with
    | .relHumidity raw _ => some raw
    | _ => none

/-! ### Helper lemmas: totality and the buffer-length invariant -/

lemma crcShift_lt (poly c : Nat) : crcShift poly c < 256 := by
  unfold crcShift
  split <;> exact Nat.mod_lt _ (by norm_num)

lemma crcFoldByte_lt (poly c b : Nat) : crcFoldByte poly c b < 256 := by
  unfold crcFoldByte
  rw [show (8 : Nat) = 7 + 1 from rfl, Function.iterate_succ_apply']
  exact crcShift_lt _ _

lemma calculate_checksum_pair_lt (b0 b1 : Nat) :
    calculate_checksum sht31Config [b0, b1] < 256 := by
  unfold calculate_checksum
  simpa [sht31Config] using crcFoldByte_lt 0x31 (crcFoldByte 0x31 0xFF b0) b1

lemma handle_some_of_len (d : Decoder) (b : Nat) (s : String)
    (h : d.databytes.length ≤ 5) :
    ∃ r, d.handle_periodic_data b s = some r ∧ r.1.databytes.length ≤ 5 := by
  rcases d with ⟨st, l, cfg, dss, des, sb, eb⟩
  rcases l with _ | ⟨a0, _ | ⟨a1, _ | ⟨a2, _ | ⟨a3, _ | ⟨a4, _ | ⟨a5, t⟩⟩⟩⟩⟩⟩
  · exact ⟨_, rfl, by simp⟩
  · exact ⟨_, rfl, by simp⟩
  · exact ⟨_, rfl, by simp⟩
  · exact ⟨_, rfl, by simp⟩
  · exact ⟨_, rfl, by simp⟩
  · exact ⟨_, rfl, by simp⟩
  · simp at h

lemma decode_some_of_inv (d : Decoder) (ev : Event)
    (h : d.databytes.length ≤ 5) :
    ∃ r, d.decode ev = some r ∧ r.1.databytes.length ≤ 5 := by
  obtain ⟨cmd, db, evss, eves⟩ := ev
  rcases d with ⟨st, l, cfg, dss, des, sb, eb⟩
  cases st <;> cases cmd <;>
    first
      | exact ⟨_, rfl, by simpa using h⟩
      | simpa only [Decoder.decode] using
          handle_some_of_len
            { state := .READ_PERIODIC_DATA, databytes := l, crc_config := cfg,
              ss := evss, es := eves, ss_block := sb, es_block := eb }
            db "READ" (by simpa using h)

lemma runEvents_some_of_inv : ∀ (evs : List Event) (d : Decoder),
    d.databytes.length ≤ 5 →
    ∃ r, runEvents d evs = some r ∧ r.1.databytes.length ≤ 5
  | [], d, h => ⟨(d, []), rfl, h⟩
  | ev :: rest, d, h => by
      obtain ⟨⟨d1, anns⟩, hd, h1⟩ := decode_some_of_inv d ev h
      obtain ⟨⟨d2, anns2⟩, hr, h2⟩ := runEvents_some_of_inv rest d1 h1
      exact ⟨(d2, anns ++ anns2), by simp [runEvents, hd, hr], h2⟩

/-! ### Claim theorems -/

/-- **C3.** From a freshly constructed or reset decoder, the Reading
Buffer length never exceeds 6: between any two consecutive events it is
at most 5 (first conjunct, over every successful run), and the push that
reaches length 6 — the second checksum byte — clears the buffer back to
empty within the same `handle_periodic_data` call (second conjunct). -/
theorem buffer_length_invariant :
    (∀ (d0 : Decoder) (evs : List Event) (r : Decoder × List Ann),
        runEvents (d0.reset).1 evs = some r → r.1.databytes.length ≤ 5)
    ∧ (∀ (d : Decoder) (b : Nat) (s : String), d.databytes.length = 5 →
        Option.map (fun r => r.1.databytes) (d.handle_periodic_data b s)
          = some []) := by
  constructor
  · intro d0 evs r hr
    obtain ⟨r', hr', hlen⟩ :=
      runEvents_some_of_inv evs (d0.reset).1 (by simp [Decoder.reset])
    rw [hr] at hr'
    obtain rfl := Option.some.inj hr'
    exact hlen
  · intro d b s h
    rcases d with ⟨st, l, cfg, dss, des, sb, eb⟩
    rcases l with _ | ⟨a0, _ | ⟨a1, _ | ⟨a2, _ | ⟨a3, _ | ⟨a4, _ | ⟨a5, t⟩⟩⟩⟩⟩⟩ <;>
      first
        | rfl
        | simp at h

/-- Witness for C3: the empty run from a fresh decoder keeps the buffer
at length 0 ≤ 5, and pushing a sixth byte onto a five-byte buffer leaves
an empty buffer. -/
theorem buffer_length_invariant_witness :
    (Decoder.construct, ([] : List Ann)).1.databytes.length ≤ 5
    ∧ Option.map (fun r => r.1.databytes)
        (Decoder.handle_periodic_data
          { state := .READ_PERIODIC_DATA
            databytes := [0x61, 0x62, 0xBE, 0x63, 0x21]
            crc_config := sht31Config
            ss := 70, es := 75, ss_block := 50, es_block := 65 }
          0xAC "READ") = some [] :=
  ⟨buffer_length_invariant.1 Decoder.construct [] (Decoder.construct, []) rfl,
   buffer_length_invariant.2 _ 0xAC "READ" rfl⟩

/-- **C7.** In every reachable decoder state, processing any single bus
event runs to completion: no list access raises, so `decode` returns
`some` result for every event kind and payload. -/
theorem decode_total_on_reachable (d : Decoder) (h : Reachable d)
    (ev : Event) : (d.decode ev).isSome = true := by
  obtain ⟨evs, r, hr, rfl⟩ := h
  obtain ⟨r', hr', hlen⟩ :=
    runEvents_some_of_inv evs Decoder.construct
      (by simp [Decoder.construct, Decoder.reset])
  rw [hr] at hr'
  obtain rfl := Option.some.inj hr'
  obtain ⟨r2, h2, -⟩ := decode_some_of_inv _ ev hlen
  simp [h2]

/-- Witness for C7: a fresh decoder (reachable via the empty run)
processes a START event without raising. -/
theorem decode_total_on_reachable_witness :
    ((Decoder.construct, ([] : List Ann)).1.decode
        { cmd := .START, databyte := 0, ss := 0, es := 1 }).isSome = true :=
  decode_total_on_reachable _
    ⟨[], (Decoder.construct, []), rfl, rfl⟩
    { cmd := .START, databyte := 0, ss := 0, es := 1 }

/-- **C8.** `reset` is idempotent — applying it twice gives the same
observable state as once (state `IDLE`, empty buffer, the fixed CRC
configuration) — and it emits no records. -/
theorem reset_idempotent (d : Decoder) :
    ((d.reset).1.reset).1 = (d.reset).1
    ∧ (d.reset).2 = []
    ∧ (d.reset).1.state = .IDLE
    ∧ (d.reset).1.databytes = []
    ∧ (d.reset).1.crc_config = sht31Config :=
  ⟨rfl, rfl, rfl, rfl, rfl⟩

/-- **C5.** Over the full two-byte domain, `verify_checksum` holds iff
`calculate_checksum` of the data equals the expected byte; the computed
checksum is always a single byte (< 256); and at the boundary input
`[0x00, 0x00]` the checksum is the fixed value 0x81 of
CRC-8/poly 0x31/init 0xFF. -/
theorem verify_iff_compute :
    (∀ b0 b1 e : Nat,
        verify_checksum sht31Config [b0, b1] e = true
          ↔ calculate_checksum sht31Config [b0, b1] = e)
    ∧ (∀ b0 b1 : Nat, calculate_checksum sht31Config [b0, b1] < 256)
    ∧ calculate_checksum sht31Config [0x00, 0x00] = 0x81 := by
  refine ⟨fun b0 b1 e => ?_, calculate_checksum_pair_lt, by decide⟩
  simp [verify_checksum]

/-- **C6.** The unit converters are the exact rational formulas
`-45 + 175·raw/65535` and `100·raw/65535` over the whole `u16` domain,
with the boundary values −45 °C and 130 °C, 0 % and 100 %; no rounding
happens inside the conversion (formatting is left to the emitted
record's renderer). -/
theorem unit_converter_values :
    (∀ raw : Nat, temperature_celsius raw = -45 + 175 * (raw : ℚ) / 65535)
    ∧ (∀ raw : Nat, relative_humidity_percent raw = 100 * (raw : ℚ) / 65535)
    ∧ temperature_celsius 0 = -45
    ∧ temperature_celsius 65535 = 130
    ∧ relative_humidity_percent 0 = 0
    ∧ relative_humidity_percent 65535 = 100 := by
  refine ⟨fun raw => by norm_num [temperature_celsius],
          fun raw => by norm_num [relative_humidity_percent],
          ?_, ?_, ?_, ?_⟩ <;>
    norm_num [temperature_celsius, relative_humidity_percent]

/-- A transaction cut short by STOP after one data byte, followed by the
start of a new transaction up to its `AwaitingAddress` → `ReadingData`
transition (second ADDRESS READ). -/
def truncatedThenRestart : List Event :=
  [{ cmd := .START, databyte := 0, ss := 0, es := 5 },
   { cmd := .ADDRESS_READ, databyte := 0x44, ss := 10, es := 15 },
   { cmd := .DATA_READ, databyte := 0xAB, ss := 20, es := 25 },
   { cmd := .STOP, databyte := 0, ss := 30, es := 35 },
   { cmd := .START, databyte := 0, ss := 40, es := 45 },
   { cmd := .ADDRESS_READ, databyte := 0x44, ss := 50, es := 55 }]

/-- Counterexample to C2: after a STOP interrupts a reading with one
buffered byte, the next `AwaitingAddress` → `ReadingData` transition
leaves the decoder holding `[0xAB]`, not an empty buffer, so the next
DATA READ would land at position 1, not 0. -/
theorem stop_discards_buffer_counterexample :
    Option.map (fun r => (r.1.state, r.1.databytes))
        (runEvents Decoder.construct truncatedThenRestart)
      = some (.READ_PERIODIC_DATA, [0xAB])
    ∧ ([0xAB] : List Nat) ≠ [] := by decide

/-- **C2 (amended).** Processing any event other than a DATA READ —
including the STOP that interrupts a reading and the START / ADDRESS READ
that open the next transaction — leaves the Reading Buffer exactly as it
was, and never raises. Leftover bytes from an interrupted reading are
therefore carried into the next transaction: the first DATA READ of the
new transaction lands at the old length, and the buffer is emptied only
by completing a six-byte reading or by an explicit `reset`. -/
theorem stop_keeps_buffer (d : Decoder) (ev : Event)
    (h : ev.cmd ≠ .DATA_READ) :
    Option.map (fun r => r.1.databytes) (d.decode ev)
      = some d.databytes := by
  obtain ⟨cmd, db, evss, eves⟩ := ev
  rcases d with ⟨st, l, cfg, dss, des, sb, eb⟩
  cases st <;> cases cmd <;> first | rfl | exact absurd rfl h

/-- Witness for C2 (amended): a STOP in `ReadingData` with one buffered
byte keeps that byte. -/
theorem stop_keeps_buffer_witness :
    Option.map (fun r => r.1.databytes)
        (Decoder.decode
          { state := .READ_PERIODIC_DATA, databytes := [0xAB]
            crc_config := sht31Config
            ss := 20, es := 25, ss_block := 20, es_block := 0 }
          { cmd := .STOP, databyte := 0, ss := 30, es := 35 })
      = some [0xAB] :=
  stop_keeps_buffer _ { cmd := .STOP, databyte := 0, ss := 30, es := 35 }
    (by decide)

/-- The spec's happy-path Scenario A: one complete periodic reading with
data bytes `[0x61, 0x62, 0xBE, 0x63, 0x21, 0xAC]`. -/
def scenarioA : List Event :=
  [{ cmd := .START, databyte := 0, ss := 0, es := 5 },
   { cmd := .ADDRESS_READ, databyte := 0x44, ss := 10, es := 15 },
   { cmd := .DATA_READ, databyte := 0x61, ss := 20, es := 25 },
   { cmd := .DATA_READ, databyte := 0x62, ss := 30, es := 35 },
   { cmd := .DATA_READ, databyte := 0xBE, ss := 40, es := 45 },
   { cmd := .DATA_READ, databyte := 0x63, ss := 50, es := 55 },
   { cmd := .DATA_READ, databyte := 0x21, ss := 60, es := 65 },
   { cmd := .DATA_READ, databyte := 0xAC, ss := 70, es := 75 },
   { cmd := .STOP, databyte := 0, ss := 80, es := 85 }]

/-- **C1 (code behaviour at the failing input).** On Scenario A the single
emitted relative-humidity record carries the raw word
`databytes[2]·256 + databytes[3] = 0xBE63` — built from the temperature
checksum byte and the humidity high byte — and not
`databytes[3]·256 + databytes[4] = 0x6321` as the claim (and the code's
own CRC grouping, which validates `databytes[3:5]` against
`databytes[5]`) requires. -/
theorem humidity_raw_code_behavior :
    Option.map (fun r => humidityRaws r.2)
        (runEvents Decoder.construct scenarioA)
      = some [0xBE * 256 + 0x63]
    ∧ (0xBE * 256 + 0x63 : Nat) ≠ 0x63 * 256 + 0x21 := by decide

/-- **C4.** In `GET SLAVE ADDR`, an ADDRESS READ always moves the decoder
to `READ PERIODIC DATA` and leaves the buffer alone; it emits exactly one
bad-slave warning when the address is outside {0x44, 0x45} and nothing
when it is inside — validity decides only the warning, never the
transition. -/
theorem address_read_handling (d : Decoder) (addr s e : Nat)
    (h : d.state = .GET_SLAVE_ADDR) :
    Option.map (fun r => (r.1.state, r.1.databytes, r.2))
        (d.decode { cmd := .ADDRESS_READ, databyte := addr, ss := s, es := e })
      = some (.READ_PERIODIC_DATA, d.databytes,
          if addr = 0x44 ∨ addr = 0x45 then []
          else [{ ss := s, es := e, body := .addrWarn addr }]) := by
  rcases d with ⟨st, l, cfg, dss, des, sb, eb⟩
  obtain rfl : st = .GET_SLAVE_ADDR := h
  by_cases hv : addr = 0x44 ∨ addr = 0x45
  · have hr : 0x44 ≤ addr ∧ addr ≤ 0x45 := by omega
    simp [Decoder.decode, Decoder.warn_upon_invalid_slave, hv, hr]
  · have hr : ¬(0x44 ≤ addr ∧ addr ≤ 0x45) := by omega
    simp [Decoder.decode, Decoder.warn_upon_invalid_slave, hv, hr]

/-- Witness for C4: address 0x50 in `GET SLAVE ADDR` yields the
transition plus exactly one bad-slave warning. -/
theorem address_read_handling_witness :
    Option.map (fun r => (r.1.state, r.1.databytes, r.2))
        (Decoder.decode
          { state := .GET_SLAVE_ADDR, databytes := []
            crc_config := sht31Config
            ss := 0, es := 5, ss_block := 0, es_block := 0 }
          { cmd := .ADDRESS_READ, databyte := 0x50, ss := 10, es := 15 })
      = some (.READ_PERIODIC_DATA, [],
          if (0x50 : Nat) = 0x44 ∨ (0x50 : Nat) = 0x45 then []
          else [{ ss := 10, es := 15, body := .addrWarn 0x50 }]) :=
  address_read_handling _ 0x50 10 15 rfl

lemma reachable_databytes_len (d : Decoder) (h : Reachable d) :
    d.databytes.length ≤ 5 := by
  obtain ⟨evs, r, hr, rfl⟩ := h
  obtain ⟨r', hr', hlen⟩ :=
    runEvents_some_of_inv evs Decoder.construct
      (by simp [Decoder.construct, Decoder.reset])
  rw [hr] at hr'
  obtain rfl := Option.some.inj hr'
  exact hlen

lemma handle_checksum_ann_span (d : Decoder) (b : Nat) (s : String)
    (hlen : d.databytes.length ≤ 5)
    (r : Decoder × List Ann) (h : d.handle_periodic_data b s = some r)
    (a : Ann) (ha : a ∈ r.2) (hb : a.body.isChecksum = true) :
    a.ss = d.ss ∧ a.es = d.es := by
  rcases d with ⟨st, l, cfg, dss, des, sb, eb⟩
  rcases l with _ | ⟨a0, _ | ⟨a1, _ | ⟨a2, _ | ⟨a3, _ | ⟨a4, _ | ⟨a5, t⟩⟩⟩⟩⟩⟩
  · obtain rfl := Option.some.inj h
    simp at ha
  · obtain rfl := Option.some.inj h
    simp only [List.mem_singleton] at ha
    subst ha
    simp [Decoder.output_temperature, AnnBody.isChecksum] at hb
  · obtain rfl := Option.some.inj h
    simp only [List.mem_singleton] at ha
    subst ha
    unfold Decoder.warn_upon_crc_error
    split <;> exact ⟨rfl, rfl⟩
  · obtain rfl := Option.some.inj h
    simp at ha
  · obtain rfl := Option.some.inj h
    simp only [List.mem_singleton] at ha
    subst ha
    simp [Decoder.output_relative_humidity, AnnBody.isChecksum] at hb
  · obtain rfl := Option.some.inj h
    simp only [List.mem_singleton] at ha
    subst ha
    unfold Decoder.warn_upon_crc_error
    split <;> exact ⟨rfl, rfl⟩
  · simp at hlen

/-- **C9.** In every reachable state, every checksum record (CRC ok or
CRC warning) is emitted while processing a DATA READ event and spans
exactly that event — the single checksum byte whose field is opened and
closed at buffer positions 2 and 5 in one step — so its `ss`/`es` equal
the `ss` of the first and the `es` of the last (identical) byte of its
block. -/
theorem checksum_ann_span (d : Decoder) (hd : Reachable d) (ev : Event)
    (r : Decoder × List Ann) (h : d.decode ev = some r) (a : Ann)
    (ha : a ∈ r.2) (hb : a.body.isChecksum = true) :
    ev.cmd = .DATA_READ ∧ a.ss = ev.ss ∧ a.es = ev.es := by
  have hlen := reachable_databytes_len d hd
  obtain ⟨cmd, db, evss, eves⟩ := ev
  rcases d with ⟨st, l, cfg, dss, des, sb, eb⟩
  cases st <;> cases cmd <;>
    first
      | exact ⟨rfl, handle_checksum_ann_span _ db "READ"
          (by simpa using hlen) r h a ha hb⟩
      | (obtain rfl := Option.some.inj h; simp at ha; done)
      | (obtain rfl := Option.some.inj h
         simp only [Decoder.warn_upon_invalid_slave] at ha
         split at ha
         · simp at ha
         · simp only [List.mem_singleton] at ha
           subst ha
           simp [AnnBody.isChecksum] at hb)

/-- Witness for C9: the third data byte (0xBE, not matching the CRC of
[0x61, 0x62]) produces a checksum record spanning exactly its event. -/
theorem checksum_ann_span_witness :
    ({ cmd := .DATA_READ, databyte := 0xBE, ss := 40, es := 45 }
        : Event).cmd = Cmd.DATA_READ
    ∧ ({ ss := 40, es := 45, body := .crcWarn 0xF9 } : Ann).ss
        = ({ cmd := .DATA_READ, databyte := 0xBE, ss := 40, es := 45 }
            : Event).ss
    ∧ ({ ss := 40, es := 45, body := .crcWarn 0xF9 } : Ann).es
        = ({ cmd := .DATA_READ, databyte := 0xBE, ss := 40, es := 45 }
            : Event).es :=
  checksum_ann_span
    { state := .READ_PERIODIC_DATA, databytes := [0x61, 0x62]
      crc_config := sht31Config
      ss := 30, es := 35, ss_block := 20, es_block := 35 }
    ⟨[{ cmd := .START, databyte := 0, ss := 0, es := 5 },
      { cmd := .ADDRESS_READ, databyte := 0x44, ss := 10, es := 15 },
      { cmd := .DATA_READ, databyte := 0x61, ss := 20, es := 25 },
      { cmd := .DATA_READ, databyte := 0x62, ss := 30, es := 35 }],
     ({ state := .READ_PERIODIC_DATA, databytes := [0x61, 0x62]
        crc_config := sht31Config
        ss := 30, es := 35, ss_block := 20, es_block := 35 },
      [{ ss := 20, es := 35
         body := .temperature 24930 (temperature_celsius 24930) }]),
     rfl, rfl⟩
    { cmd := .DATA_READ, databyte := 0xBE, ss := 40, es := 45 }
    ({ state := .READ_PERIODIC_DATA, databytes := [0x61, 0x62, 0xBE]
       crc_config := sht31Config
       ss := 40, es := 45, ss_block := 40, es_block := 45 },
     [{ ss := 40, es := 45, body := .crcWarn 0xF9 }])
    (by decide)
    { ss := 40, es := 45, body := .crcWarn 0xF9 }
    (by simp)
    (by decide)

/-- **C10.** The byte rendered by both CRC format strings is the checksum
computed over the data bytes; in the mismatch (warning) case that byte
differs from the expected byte received on the bus, so the displayed
value is never the byte that actually arrived. -/
theorem crc_rendered_byte (d : Decoder) (data : List Nat) (e : Nat) :
    (d.warn_upon_crc_error data e).renderedCrc
        = some (calculate_checksum d.crc_config data)
    ∧ ((d.warn_upon_crc_error data e).body.isCrcWarn = true
        → calculate_checksum d.crc_config data ≠ e) := by
  unfold Decoder.warn_upon_crc_error
  simp only [verify_checksum]
  split
  · next hv =>
      exact ⟨rfl, fun hb => by simp [AnnBody.isCrcWarn] at hb⟩
  · next hv =>
      exact ⟨rfl, fun _ => by simpa using hv⟩

/-- Witness for C10: at data [0x00, 0x00] with expected byte 0 the
warning record renders the computed checksum 0x81, which is not the
expected byte. -/
theorem crc_rendered_byte_witness :
    (Decoder.construct.warn_upon_crc_error [0x00, 0x00] 0).renderedCrc
        = some (calculate_checksum Decoder.construct.crc_config [0x00, 0x00])
    ∧ calculate_checksum Decoder.construct.crc_config [0x00, 0x00] ≠ 0 :=
  ⟨(crc_rendered_byte Decoder.construct [0x00, 0x00] 0).1,
   (crc_rendered_byte Decoder.construct [0x00, 0x00] 0).2 (by decide)⟩

end SHT31
